import Mathlib

/-!
# PiTiVi timeline media widget (`src/pitivi-timelinemedia.c`)

A shallow embedding of the GObject/GTK widget class `PitiviTimelineMedia`.

* C pointers are addresses (`Ptr`, with `NULL = 0`).
* A `gint` is an integer in the range of 32 bits; `gint` addition and
  subtraction wrap modulo 2^32 (`gint`), as the compiled two's complement
  arithmetic does.
* A finite `gdouble` is the rational number it stands for; `gdouble`
  subtraction rounds the exact difference to the nearest double, ties to even
  (`double_sub`), and the conversion of a `gdouble` to a `gint` truncates
  toward zero (`double_to_gint`).
* A call that reaches `g_assert (FALSE)` returns `Except.error Abort.assertion`.
* Calls into GTK/GDK and into the rest of the editor are recorded, in program
  order, as a list of `Call`s.
* Constants and functions that come from headers and libraries outside this
  file (`pitivi.h`, `pitivi-cursor.h`, GLib, ...) are the fields of `Env`.
-/

namespace Pitivi

/-- A C pointer, as an address. -/
abbrev Ptr := Nat

/-- The null pointer. -/
def NULL : Ptr := 0

/-- Enumerator `PROP_MEDIA_TYPE = 1` of `PitiviMediaProperty`. -/
def PROP_MEDIA_TYPE : Nat := 1

/-- Enumerator `PROP_SOURCEFILE` of `PitiviMediaProperty` (the one after 1). -/
def PROP_SOURCEFILE : Nat := 2

/-- A `GValue`, as far as this class uses one: it holds an int (the value of
the `g_param_spec_int` property) or a pointer (the `g_param_spec_pointer` one). -/
inductive GValue where
  | int (v : Int)
  | pointer (p : Ptr)
  deriving DecidableEq, Repr

/-- The way a call can stop the program: `g_assert (FALSE)` is reached, or a
null pointer is dereferenced. -/
inductive Abort where
  | assertion
  | null_dereference
  deriving DecidableEq, Repr

/-- Fields of `struct _PitiviTimelineMediaPrivate`. -/
structure PitiviTimelineMediaPrivate where
  cursor_type : Int
  dispose_has_run : Bool
  media_type : Int
  original_width : Nat
  original_height : Nat
  deriving DecidableEq, Repr

/-- Fields of `GtkAllocation`. -/
structure GtkAllocation where
  x : Int
  y : Int
  width : Int
  height : Int
  deriving DecidableEq, Repr

/-- Fields of `GtkRequisition`. -/
structure GtkRequisition where
  width : Int
  height : Int
  deriving DecidableEq, Repr

/-- The two fields of `PitiviSourceItem` this file touches. -/
structure PitiviSourceItem where
  srcfile : Ptr
  gnlsource : Ptr
  deriving DecidableEq, Repr

/-- The widget instance: the fields of `PitiviTimelineMedia` this file reads or
writes (`private`, `sf`, `selected`, `sourceitem`), and of its `GtkWidget` part
the parent container, the allocation and the `GTK_REALIZED` flag. The C field
`private` is `priv` here, `sourceitem` is `none` while the C pointer is null. -/
structure PitiviTimelineMedia where
  priv : PitiviTimelineMediaPrivate
  sf : Ptr
  selected : Bool
  sourceitem : Option PitiviSourceItem
  parent : Ptr
  allocation : GtkAllocation
  realized : Bool
  deriving DecidableEq, Repr

/-- What `pitivi_getcursor_id` returns, as far as it is read: `cursor->type`. -/
structure PitiviCursor where
  type : Int
  deriving DecidableEq, Repr

/-- Fields of `GdkEventButton` that the handlers read; `x` and `y` are
`gdouble`s. -/
structure GdkEventButton where
  x : ℚ
  y : ℚ
  button : Nat
  deriving DecidableEq, Repr

/-- A `GdkColor` local variable: a channel is `none` until it is assigned. -/
structure GdkColor where
  red : Option Nat
  green : Option Nat
  blue : Option Nat
  deriving DecidableEq, Repr

/-- Which widget a recorded call is about: the handler's own `widget`, or the
local `media` it created. -/
inductive WidgetRef where
  | widget
  | media
  deriving DecidableEq, Repr

/-- Calls that leave this file, with their arguments. -/
inductive Call where
  | parent_dispose
  | gtk_widget_set_size_request (w : WidgetRef) (width height : Int)
  | pitivi_timelinemedia_new (sf : Ptr)
  | add_to_layout (container : Ptr) (child : WidgetRef) (x y : Int)
  | gtk_widget_show (w : WidgetRef)
  | gdk_window_move_resize (x y width height : Int)
  | gtk_style_set_background
  | gdk_gc_new
  | gdk_gc_set_rgb_fg_color (color : GdkColor)
  | gdk_draw_rectangle (filled : Bool) (x y width height : Int)
  deriving DecidableEq, Repr

/-- Everything this file takes from its headers and libraries: the enumerators
of `PitiviLayerType` and `PitiviCursorType`, the mouse button and size macros,
`check_media_type`, GLib's `g_value_get_pointer`, the blocks `g_new` and
`g_new0` hand out, and the instance as `g_type_create_instance` leaves it for
`instance_init`. -/
structure Env where
  PITIVI_NO_TRACK : Int
  PITIVI_VIDEO_TRACK : Int
  PITIVI_AUDIO_TRACK : Int
  PITIVI_VIDEO_AUDIO_TRACK : Int
  PITIVI_CURSOR_CUT : Int
  PITIVI_MOUSE_RIGHT_CLICK : Nat
  FIXED_HEIGHT : Int
  DEFAULT_WIDTH : Int
  DEFAULT_HEIGHT : Int
  check_media_type : Ptr → Int
  g_value_get_pointer : GValue → Ptr
  new_sf : Ptr
  new_gnlsource : Ptr
  raw_instance : PitiviTimelineMedia

/-- The `gint` a 32 bit two's complement sum or difference comes out as: the
exact result reduced modulo 2^32 into -2^31 .. 2^31 - 1. -/
def gint (v : Int) : Int := (v + 2147483648) % 4294967296 - 2147483648

/-- Rounding to the nearest integer, a tie going to the even one. -/
def round_half_even (s : ℚ) : Int :=
  let f := ⌊s⌋
  if s - f < 1 / 2 then f
  else if 1 / 2 < s - f then f + 1
  else if f % 2 = 0 then f else f + 1

/-- The double nearest to a rational (IEEE 754 binary64, round to nearest, ties
to even): 53 significant bits, the last one worth at least 2^-1074. Values
beyond the largest double, which round to an infinity, are left finite here;
no pixel coordinate comes near them. -/
def round_to_double (q : ℚ) : ℚ :=
  if q = 0 then 0
  else
    let e : Int := max (Int.log 2 |q| - 52) (-1074)
    round_half_even (q / 2 ^ e) * 2 ^ e

/-- The C expression `a - b` on two `gdouble`s. -/
def double_sub (a b : ℚ) : ℚ := round_to_double (a - b)

/-- The C conversion of a `gdouble` to a `gint`: the fraction is dropped
(truncation toward zero). For a value outside the range of a `gint`, which C
leaves undefined, this is the -2^31 that the x86-64 conversion gives. -/
def double_to_gint (d : ℚ) : Int :=
  let t : Int := if 0 ≤ d then ⌊d⌋ else ⌈d⌉
  if -2147483648 ≤ t ∧ t ≤ 2147483647 then t else -2147483648

/-- `pitivi_timelinemedia_instance_init`: `private` is a zero-filled block
(`g_new0`), `sf` a fresh block, `dispose_has_run` and `selected` are `FALSE`.
(The drag source registration and the three signal connections do not touch
the instance fields.) -/
def pitivi_timelinemedia_instance_init (env : Env) (self : PitiviTimelineMedia) :
    PitiviTimelineMedia :=
  let zeroed : PitiviTimelineMediaPrivate :=
    { cursor_type := 0, dispose_has_run := false, media_type := 0,
      original_width := 0, original_height := 0 }
  { self with
    priv := { zeroed with dispose_has_run := false }
    sf := env.new_sf
    selected := false }

/-- `pitivi_timelinemedia_set_property`: the `switch` on `property_id`. Both
cases assign `self->sf`; the default case is `g_assert (FALSE)`. -/
def pitivi_timelinemedia_set_property (env : Env) (self : PitiviTimelineMedia)
    (property_id : Nat) (value : GValue) : Except Abort PitiviTimelineMedia :=
  if property_id = PROP_SOURCEFILE then
    .ok { self with sf := env.g_value_get_pointer value }
  else if property_id = PROP_MEDIA_TYPE then
    .ok { self with sf := env.g_value_get_pointer value }
  else
    .error Abort.assertion

/-- `pitivi_timelinemedia_get_property`: the `switch` has a default case only,
`g_assert (FALSE)`. -/
def pitivi_timelinemedia_get_property (_self : PitiviTimelineMedia)
    (property_id : Nat) : Except Abort GValue :=
  match property_id with
  | _ => .error Abort.assertion

/-- `pitivi_timelinemedia_dispose`: returns at once when `dispose_has_run`,
else sets the flag and chains to the parent class. -/
def pitivi_timelinemedia_dispose (self : PitiviTimelineMedia) :
    PitiviTimelineMedia × List Call :=
  if self.priv.dispose_has_run then
    (self, [])
  else
    ({ self with priv := { self.priv with dispose_has_run := true } },
      [Call.parent_dispose])

/-- The parent class's constructor as `GObject` runs it: the instance is
created (`instance_init` runs on it), then every construct property is set
through the class's `set_property`. -/
def parent_constructor (env : Env) (construct_properties : List (Nat × GValue)) :
    Except Abort PitiviTimelineMedia :=
  construct_properties.foldlM
    (fun object p => pitivi_timelinemedia_set_property env object p.1 p.2)
    (pitivi_timelinemedia_instance_init env env.raw_instance)

/-- `pitivi_timelinemedia_constructor`: chains to the parent constructor, then
allocates `sourceitem` (zero-filled) and its `gnlsource`. -/
def pitivi_timelinemedia_constructor (env : Env)
    (construct_properties : List (Nat × GValue)) : Except Abort PitiviTimelineMedia := do
  let object ← parent_constructor env construct_properties
  let sourceitem : PitiviSourceItem := { srcfile := NULL, gnlsource := NULL }
  return { object with
    sourceitem := some { sourceitem with gnlsource := env.new_gnlsource } }

/-- `g_object_new (PITIVI_TIMELINEMEDIA_TYPE, "sourcefile", sf, "media_type",
type, NULL)`: `sourcefile` is `G_PARAM_CONSTRUCT_ONLY`, so it goes to the
constructor; `media_type` is not a construct property, so it is set on the
constructed object. -/
def g_object_new (env : Env) (sf : Ptr) (type : Int) : Except Abort PitiviTimelineMedia := do
  let object ← pitivi_timelinemedia_constructor env [(PROP_SOURCEFILE, GValue.pointer sf)]
  pitivi_timelinemedia_set_property env object PROP_MEDIA_TYPE (GValue.int type)

/-- `pitivi_timelinemedia_new`; the assignment through `sourceitem` needs the
pointer to be non-null. -/
def pitivi_timelinemedia_new (env : Env) (sf : Ptr) : Except Abort PitiviTimelineMedia := do
  let type := if sf ≠ NULL then env.check_media_type sf else env.PITIVI_NO_TRACK
  let timelinemedia ← g_object_new env sf type
  match timelinemedia.sourceitem with
  | some sourceitem =>
    return { timelinemedia with sourceitem := some { sourceitem with srcfile := sf } }
  | none => .error Abort.null_dereference

/-- The colour `pitivi_timelinemedia_expose` has in its local `color` when it
reaches `gdk_gc_set_rgb_fg_color`: the `if` / `else if` chain on `media_type`. -/
def expose_color (env : Env) (self : PitiviTimelineMedia) : GdkColor :=
  let color : GdkColor := { red := none, green := none, blue := none }
  if self.priv.media_type = env.PITIVI_VIDEO_TRACK then
    { color with red := some 0xffff, blue := some 0x8080, green := some 0xdede }
  else if self.priv.media_type = env.PITIVI_AUDIO_TRACK then
    { color with red := some 0x8080, blue := some 0xffff, green := some 0xaaaa }
  else if self.priv.media_type = env.PITIVI_VIDEO_AUDIO_TRACK then
    { color with red := some 0x6060, blue := some 0x6060, green := some 0xcccc }
  else
    color

/-- `pitivi_timelinemedia_expose`: the return value and the drawing calls, the
last one `gdk_draw_rectangle (widget->window, gc, TRUE, 0, 0,
widget->allocation.width-2, -1)` with the graphics context made just before. -/
def pitivi_timelinemedia_expose (env : Env) (widget : PitiviTimelineMedia) :
    Bool × List Call :=
  (false,
    [Call.gtk_style_set_background,
     Call.gdk_gc_new,
     Call.gdk_gc_set_rgb_fg_color (expose_color env widget),
     Call.gdk_draw_rectangle true 0 0 (gint (widget.allocation.width - 2)) (-1)])

/-- `pitivi_timelinemedia_size_request` (both pointers non-null). -/
def pitivi_timelinemedia_size_request (env : Env) (widget : PitiviTimelineMedia)
    (_requisition : GtkRequisition) : PitiviTimelineMedia × GtkRequisition :=
  (widget, { width := env.DEFAULT_WIDTH, height := env.DEFAULT_HEIGHT })

/-- `pitivi_timelinemedia_size_allocate` (both pointers non-null). -/
def pitivi_timelinemedia_size_allocate (widget : PitiviTimelineMedia)
    (allocation : GtkAllocation) : PitiviTimelineMedia × List Call :=
  ({ widget with allocation := allocation },
    if widget.realized then
      [Call.gdk_window_move_resize allocation.x allocation.y allocation.width
        allocation.height]
    else [])

/-- `pitivi_timelinemedia_realize`, as far as the instance fields go: the
`GTK_REALIZED` flag is set (the GDK window it creates is not modelled). -/
def pitivi_timelinemedia_realize (widget : PitiviTimelineMedia) : PitiviTimelineMedia :=
  { widget with realized := true }

/-- `pitivi_timelinemedia_configure_event`; `cursor` is what
`pitivi_getcursor_id (widget)` returns. -/
def pitivi_timelinemedia_configure_event (widget : PitiviTimelineMedia)
    (cursor : PitiviCursor) : Bool × PitiviTimelineMedia :=
  (false, { widget with priv := { widget.priv with cursor_type := cursor.type } })

/-- What a button release leaves behind: the return value, the widget, the
widgets created and the calls made. -/
structure ButtonRelease where
  ret : Bool
  widget : PitiviTimelineMedia
  created : List PitiviTimelineMedia
  calls : List Call
  deriving DecidableEq, Repr

/-- `pitivi_timelinemedia_button_release_event`; `cursor` is what
`pitivi_getcursor_id (widget)` returns. The first `if` is the right-click
branch, whose body (under `self->selected`) is empty; the second is the cut:
`event->x-2` is a `gdouble` converted to the `gint` width parameter,
`container` is `gtk_widget_get_parent (widget)`, `x = event->x` converts the
coordinate itself, and the other two sums are `gint` arithmetic. -/
def pitivi_timelinemedia_button_release_event (env : Env) (widget : PitiviTimelineMedia)
    (cursor : PitiviCursor) (event : GdkEventButton) : Except Abort ButtonRelease := do
  if event.button = env.PITIVI_MOUSE_RIGHT_CLICK then
    if widget.selected then
      pure ()
  if cursor.type = env.PITIVI_CURSOR_CUT then
    let container := widget.parent
    let media ← pitivi_timelinemedia_new env widget.sf
    let x := double_to_gint event.x
    return {
      ret := false
      widget := widget
      created := [media]
      calls :=
        [Call.gtk_widget_set_size_request WidgetRef.widget
           (double_to_gint (double_sub event.x 2)) env.FIXED_HEIGHT,
         Call.pitivi_timelinemedia_new widget.sf,
         Call.gtk_widget_set_size_request WidgetRef.media
           (gint (widget.allocation.width - x)) env.FIXED_HEIGHT,
         Call.add_to_layout container WidgetRef.media (gint (x + widget.allocation.x)) 0,
         Call.gtk_widget_show WidgetRef.media] }
  else
    return { ret := false, widget := widget, created := [], calls := [] }

/-- Operations on one widget after its creation. -/
inductive Op where
  | set_property (property_id : Nat) (value : GValue)
  | dispose
  | configure_event (cursor : PitiviCursor)
  | button_release_event (cursor : PitiviCursor) (event : GdkEventButton)
  | size_request (requisition : GtkRequisition)
  | size_allocate (allocation : GtkAllocation)
  | realize
  | expose
  deriving DecidableEq, Repr

/-- The widget after one operation. -/
def step (env : Env) (self : PitiviTimelineMedia) : Op → Except Abort PitiviTimelineMedia
  | Op.set_property property_id value =>
    pitivi_timelinemedia_set_property env self property_id value
  | Op.dispose => .ok (pitivi_timelinemedia_dispose self).1
  | Op.configure_event cursor => .ok (pitivi_timelinemedia_configure_event self cursor).2
  | Op.button_release_event cursor event =>
    (pitivi_timelinemedia_button_release_event env self cursor event).map (fun r => r.widget)
  | Op.size_request requisition =>
    .ok (pitivi_timelinemedia_size_request env self requisition).1
  | Op.size_allocate allocation => .ok (pitivi_timelinemedia_size_allocate self allocation).1
  | Op.realize => .ok (pitivi_timelinemedia_realize self)
  | Op.expose => .ok self

/-- The widget states the file can produce: an initialised instance, a
constructed object, the result of `pitivi_timelinemedia_new`, the piece a cut
creates, and any of these after further operations. -/
inductive Reachable (env : Env) : PitiviTimelineMedia → Prop where
  | init : Reachable env (pitivi_timelinemedia_instance_init env env.raw_instance)
  | constructed (construct_properties : List (Nat × GValue)) (w : PitiviTimelineMedia) :
      pitivi_timelinemedia_constructor env construct_properties = .ok w → Reachable env w
  | created (sf : Ptr) (w : PitiviTimelineMedia) :
      pitivi_timelinemedia_new env sf = .ok w → Reachable env w
  | cut (s : PitiviTimelineMedia) (cursor : PitiviCursor) (event : GdkEventButton)
      (r : ButtonRelease) (w : PitiviTimelineMedia) :
      Reachable env s →
      pitivi_timelinemedia_button_release_event env s cursor event = .ok r →
      w ∈ r.created → Reachable env w
  | after (s : PitiviTimelineMedia) (op : Op) (w : PitiviTimelineMedia) :
      Reachable env s → step env s op = .ok w → Reachable env w

/-- Calling dispose `n` times in a row: the final widget and all calls made. -/
def dispose_times : Nat → PitiviTimelineMedia → PitiviTimelineMedia × List Call
  | 0, self => (self, [])
  | n + 1, self =>
    let first := pitivi_timelinemedia_dispose self
    let rest := dispose_times n first.1
    (rest.1, first.2 ++ rest.2)

/-- The colour handed to `gdk_gc_set_rgb_fg_color` in a list of calls. -/
def fill_color (calls : List Call) : Option GdkColor :=
  calls.findSome? fun
    | Call.gdk_gc_set_rgb_fg_color color => some color
    | _ => none

/-- A filled rectangle and the foreground colour of the graphics context it is
drawn with (`none` while no colour has been set on the context). -/
structure Fill where
  color : Option GdkColor
  x : Int
  y : Int
  width : Int
  height : Int
  deriving DecidableEq, Repr

/-- The filled rectangles a list of calls draws, the graphics context having
foreground `fg` at the start: `gdk_gc_new` makes a context with no colour set,
`gdk_gc_set_rgb_fg_color` sets it, `gdk_draw_rectangle` with `filled = TRUE`
fills with it. -/
def painted_from (fg : Option GdkColor) : List Call → List Fill
  | [] => []
  | Call.gdk_gc_new :: rest => painted_from none rest
  | Call.gdk_gc_set_rgb_fg_color color :: rest => painted_from (some color) rest
  | Call.gdk_draw_rectangle true x y width height :: rest =>
    { color := fg, x := x, y := y, width := width, height := height } :: painted_from fg rest
  | _ :: rest => painted_from fg rest

/-- The filled rectangles a list of calls draws. -/
def painted (calls : List Call) : List Fill := painted_from none calls

/-- The (red, green, blue) of a colour when all three channels are assigned. -/
def GdkColor.rgb (color : GdkColor) : Option (Nat × Nat × Nat) :=
  match color.red, color.green, color.blue with
  | some r, some g, some b => some (r, g, b)
  | _, _, _ => none

/-- The range of a `gint`. -/
def gint_range (v : Int) : Prop := -2147483648 ≤ v ∧ v ≤ 2147483647

instance (v : Int) : Decidable (gint_range v) := by
  unfold gint_range
  infer_instance

/-- An instance as `g_type_create_instance` and `GtkWidget` leave it: the
class's own fields zero, no parent, the allocation at GTK's initial
(-1, -1, 1, 1). -/
def example_instance : PitiviTimelineMedia :=
  { priv := { cursor_type := 0, dispose_has_run := false, media_type := 0,
              original_width := 0, original_height := 0 }
    sf := NULL
    selected := false
    sourceitem := none
    parent := NULL
    allocation := { x := -1, y := -1, width := 1, height := 1 }
    realized := false }

/-- A concrete environment for evaluating the definitions: enumerators numbered
from `PITIVI_NO_TRACK = 0`, a cut cursor numbered 2, right click button 3,
heights of 50 and a default width of 60, a `check_media_type` that answers
video for every file, and `g_value_get_pointer` as GLib has it (the pointer of
a pointer value, `NULL` for a value that holds no pointer). -/
def example_env : Env :=
  { PITIVI_NO_TRACK := 0
    PITIVI_VIDEO_TRACK := 1
    PITIVI_AUDIO_TRACK := 2
    PITIVI_VIDEO_AUDIO_TRACK := 3
    PITIVI_CURSOR_CUT := 2
    PITIVI_MOUSE_RIGHT_CLICK := 3
    FIXED_HEIGHT := 50
    DEFAULT_WIDTH := 60
    DEFAULT_HEIGHT := 50
    check_media_type := fun _ => 1
    g_value_get_pointer := fun
      | GValue.pointer p => p
      | GValue.int _ => NULL
    new_sf := 4096
    new_gnlsource := 8192
    raw_instance := example_instance }

/-- A widget allocated at x = 100 with width 10, showing source file 7, inside
the container at address 512. -/
def example_widget : PitiviTimelineMedia :=
  { example_instance with
    sf := 7
    sourceitem := some { srcfile := 7, gnlsource := 8192 }
    parent := 512
    allocation := { x := 100, y := 0, width := 10, height := 50 } }

/-! ## Lemmas shared by the proofs -/

theorem set_property_ok_of_installed (env : Env) (self : PitiviTimelineMedia)
    (property_id : Nat) (value : GValue)
    (h : property_id = PROP_MEDIA_TYPE ∨ property_id = PROP_SOURCEFILE) :
    pitivi_timelinemedia_set_property env self property_id value =
      .ok { self with sf := env.g_value_get_pointer value } := by
  unfold pitivi_timelinemedia_set_property
  rcases h with h | h
  · subst h
    simp [PROP_MEDIA_TYPE, PROP_SOURCEFILE]
  · subst h
    simp

theorem set_property_keeps_priv (env : Env) (self w : PitiviTimelineMedia)
    (property_id : Nat) (value : GValue)
    (h : pitivi_timelinemedia_set_property env self property_id value = .ok w) :
    w.priv = self.priv := by
  unfold pitivi_timelinemedia_set_property at h
  split at h
  · cases h; rfl
  · split at h
    · cases h; rfl
    · cases h

theorem foldlM_set_property_keeps_priv (env : Env) (props : List (Nat × GValue)) :
    ∀ (start w : PitiviTimelineMedia),
      props.foldlM (fun object p => pitivi_timelinemedia_set_property env object p.1 p.2)
        start = .ok w → w.priv = start.priv := by
  induction props with
  | nil =>
    intro start w h
    cases h
    rfl
  | cons p rest ih =>
    intro start w h
    rw [List.foldlM_cons] at h
    cases hp : pitivi_timelinemedia_set_property env start p.1 p.2 with
    | error e =>
      rw [hp] at h
      cases h
    | ok mid =>
      rw [hp] at h
      have h1 := ih mid w h
      have h2 := set_property_keeps_priv env start mid p.1 p.2 hp
      rw [h1, h2]

theorem instance_init_media_type (env : Env) (self : PitiviTimelineMedia) :
    (pitivi_timelinemedia_instance_init env self).priv.media_type = 0 := rfl

theorem constructor_media_type (env : Env) (props : List (Nat × GValue))
    (w : PitiviTimelineMedia)
    (h : pitivi_timelinemedia_constructor env props = .ok w) : w.priv.media_type = 0 := by
  unfold pitivi_timelinemedia_constructor at h
  cases hp : parent_constructor env props with
  | error e =>
    rw [hp] at h
    cases h
  | ok object =>
    rw [hp] at h
    have hk := foldlM_set_property_keeps_priv env props _ object hp
    cases h
    show object.priv.media_type = 0
    rw [hk]
    rfl

/-- The result of `pitivi_timelinemedia_new`, computed: the call always
returns, and the widget it returns has the pointer that `g_value_get_pointer`
reads out of the int value in `sf`, and an untouched private block. -/
theorem new_eq (env : Env) (sf : Ptr) :
    pitivi_timelinemedia_new env sf =
      .ok { pitivi_timelinemedia_instance_init env env.raw_instance with
            sf := env.g_value_get_pointer (GValue.int
              (if sf ≠ NULL then env.check_media_type sf else env.PITIVI_NO_TRACK))
            sourceitem := some { srcfile := sf, gnlsource := env.new_gnlsource } } := by
  simp [pitivi_timelinemedia_new, g_object_new, pitivi_timelinemedia_constructor,
    parent_constructor, pitivi_timelinemedia_set_property, PROP_MEDIA_TYPE, PROP_SOURCEFILE,
    bind, Except.bind, pure, Except.pure]

/-- The four ways through the `if` / `else if` chain of the expose handler. -/
theorem expose_color_cases (env : Env) (self : PitiviTimelineMedia) :
    (self.priv.media_type = env.PITIVI_VIDEO_TRACK ∧
      expose_color env self = ⟨some 0xffff, some 0xdede, some 0x8080⟩) ∨
    (self.priv.media_type ≠ env.PITIVI_VIDEO_TRACK ∧
      self.priv.media_type = env.PITIVI_AUDIO_TRACK ∧
      expose_color env self = ⟨some 0x8080, some 0xaaaa, some 0xffff⟩) ∨
    (self.priv.media_type ≠ env.PITIVI_VIDEO_TRACK ∧
      self.priv.media_type ≠ env.PITIVI_AUDIO_TRACK ∧
      self.priv.media_type = env.PITIVI_VIDEO_AUDIO_TRACK ∧
      expose_color env self = ⟨some 0x6060, some 0xcccc, some 0x6060⟩) ∨
    (self.priv.media_type ≠ env.PITIVI_VIDEO_TRACK ∧
      self.priv.media_type ≠ env.PITIVI_AUDIO_TRACK ∧
      self.priv.media_type ≠ env.PITIVI_VIDEO_AUDIO_TRACK ∧
      expose_color env self = ⟨none, none, none⟩) := by
  unfold expose_color
  by_cases h1 : self.priv.media_type = env.PITIVI_VIDEO_TRACK
  · left
    exact ⟨h1, by rw [if_pos h1]⟩
  · by_cases h2 : self.priv.media_type = env.PITIVI_AUDIO_TRACK
    · right; left
      exact ⟨h1, h2, by rw [if_neg h1, if_pos h2]⟩
    · by_cases h3 : self.priv.media_type = env.PITIVI_VIDEO_AUDIO_TRACK
      · right; right; left
        exact ⟨h1, h2, h3, by rw [if_neg h1, if_neg h2, if_pos h3]⟩
      · right; right; right
        exact ⟨h1, h2, h3, by rw [if_neg h1, if_neg h2, if_neg h3]⟩

theorem new_media_type (env : Env) (sf : Ptr) (w : PitiviTimelineMedia)
    (h : pitivi_timelinemedia_new env sf = .ok w) : w.priv.media_type = 0 := by
  rw [new_eq] at h
  cases h
  rfl

theorem gint_of_range (v : Int) (h : -2147483648 ≤ v ∧ v ≤ 2147483647) : gint v = v := by
  unfold gint
  omega

theorem round_half_even_intCast (z : Int) : round_half_even (z : ℚ) = z := by
  simp [round_half_even]

/-- A multiple of 2^-16 below 2^36 in size is a double: rounding leaves it as
it is. -/
theorem round_to_double_fixed_point (k : Int) (h : |(k : ℚ) / 65536| < 2 ^ (36 : Int)) :
    round_to_double ((k : ℚ) / 65536) = (k : ℚ) / 65536 := by
  unfold round_to_double
  by_cases h0 : (k : ℚ) / 65536 = 0
  · rw [if_pos h0, h0]
  · rw [if_neg h0]
    have hpos : 0 < |(k : ℚ) / 65536| := abs_pos.mpr h0
    have hlog : Int.log 2 |(k : ℚ) / 65536| < 36 :=
      (Int.lt_zpow_iff_log_lt (by norm_num) hpos).mp (by exact_mod_cast h)
    obtain ⟨n, hn⟩ : ∃ n : ℕ,
        max (Int.log 2 |(k : ℚ) / 65536| - 52) (-1074) = -((n : Int) + 16) := by
      refine ⟨(-(max (Int.log 2 |(k : ℚ) / 65536| - 52) (-1074)) - 16).toNat, ?_⟩
      rw [Int.toNat_of_nonneg]
      · ring
      · have hmax : max (Int.log 2 |(k : ℚ) / 65536| - 52) (-1074) ≤ -16 :=
          max_le (by omega) (by norm_num)
        omega
    simp only [hn]
    have hz : ((2 : ℚ) ^ (-((n : Int) + 16))) = 1 / (2 ^ n * 65536) := by
      rw [zpow_neg, ← Nat.cast_ofNat (R := Int), ← Nat.cast_add, zpow_natCast, pow_add]
      norm_num
    rw [hz]
    have hs : (k : ℚ) / 65536 / (1 / (2 ^ n * 65536)) = ((k * 2 ^ n : Int) : ℚ) := by
      push_cast
      field_simp
      ring
    rw [hs, round_half_even_intCast]
    push_cast
    field_simp
    ring

/-- On a 16.16 fixed point coordinate below 2^35 in size the `gdouble`
subtraction of 2 is exact. -/
theorem double_sub_two_fixed_point (q : ℚ) (k : Int) (hk : q = (k : ℚ) / 65536)
    (hq : |q| < 34359738368) : double_sub q 2 = q - 2 := by
  have he : q - 2 = ((k - 131072 : Int) : ℚ) / 65536 := by
    rw [hk]
    push_cast
    ring
  unfold double_sub
  rw [he]
  apply round_to_double_fixed_point
  rw [← he]
  have h2 : |q - 2| ≤ |q| + 2 := by
    have := abs_sub q 2
    simpa using this
  have h3 : ((2 : ℚ) ^ (36 : Int)) = 68719476736 := by norm_num
  rw [h3]
  linarith

theorem double_to_gint_intCast (z : Int) (h : -2147483648 ≤ z ∧ z ≤ 2147483647) :
    double_to_gint (z : ℚ) = z := by
  unfold double_to_gint
  simp only [Int.floor_intCast, Int.ceil_intCast, ite_self]
  rw [if_pos h]

theorem button_release_cut (env : Env) (widget : PitiviTimelineMedia) (cursor : PitiviCursor)
    (event : GdkEventButton) (media : PitiviTimelineMedia)
    (hcut : cursor.type = env.PITIVI_CURSOR_CUT)
    (hnew : pitivi_timelinemedia_new env widget.sf = .ok media) :
    pitivi_timelinemedia_button_release_event env widget cursor event =
      .ok { ret := false
            widget := widget
            created := [media]
            calls :=
              [Call.gtk_widget_set_size_request WidgetRef.widget
                 (double_to_gint (double_sub event.x 2)) env.FIXED_HEIGHT,
               Call.pitivi_timelinemedia_new widget.sf,
               Call.gtk_widget_set_size_request WidgetRef.media
                 (gint (widget.allocation.width - double_to_gint event.x)) env.FIXED_HEIGHT,
               Call.add_to_layout widget.parent WidgetRef.media
                 (gint (double_to_gint event.x + widget.allocation.x)) 0,
               Call.gtk_widget_show WidgetRef.media] } := by
  unfold pitivi_timelinemedia_button_release_event
  rw [if_pos hcut, hnew]
  by_cases hbutton : event.button = env.PITIVI_MOUSE_RIGHT_CLICK
  · by_cases hselected : widget.selected = true
    · simp only [if_pos hbutton, if_pos hselected]
      rfl
    · simp only [if_pos hbutton, if_neg hselected]
      rfl
  · simp only [if_neg hbutton]
    rfl

theorem button_release_other (env : Env) (widget : PitiviTimelineMedia) (cursor : PitiviCursor)
    (event : GdkEventButton) (hother : cursor.type ≠ env.PITIVI_CURSOR_CUT) :
    pitivi_timelinemedia_button_release_event env widget cursor event =
      .ok { ret := false, widget := widget, created := [], calls := [] } := by
  unfold pitivi_timelinemedia_button_release_event
  rw [if_neg hother]
  by_cases hbutton : event.button = env.PITIVI_MOUSE_RIGHT_CLICK
  · by_cases hselected : widget.selected = true
    · simp only [if_pos hbutton, if_pos hselected]
      rfl
    · simp only [if_pos hbutton, if_neg hselected]
      rfl
  · simp only [if_neg hbutton]
    rfl

/-- A button release always returns, with `FALSE` and the widget as it was, and
every widget it creates is a result of `pitivi_timelinemedia_new`. -/
theorem button_release_returns (env : Env) (widget : PitiviTimelineMedia)
    (cursor : PitiviCursor) (event : GdkEventButton) :
    ∃ r, pitivi_timelinemedia_button_release_event env widget cursor event = .ok r ∧
      r.ret = false ∧ r.widget = widget ∧
      ∀ w ∈ r.created, pitivi_timelinemedia_new env widget.sf = .ok w := by
  by_cases hcut : cursor.type = env.PITIVI_CURSOR_CUT
  · refine ⟨_, button_release_cut env widget cursor event _ hcut (new_eq env widget.sf),
      rfl, rfl, ?_⟩
    intro w hw
    rw [List.mem_singleton] at hw
    rw [hw]
    exact new_eq env widget.sf
  · refine ⟨_, button_release_other env widget cursor event hcut, rfl, rfl, ?_⟩
    intro w hw
    cases hw

theorem step_keeps_media_type (env : Env) (s w : PitiviTimelineMedia) (op : Op)
    (h : step env s op = .ok w) : w.priv.media_type = s.priv.media_type := by
  cases op with
  | set_property property_id value =>
    rw [set_property_keeps_priv env s w property_id value h]
  | dispose =>
    cases h
    unfold pitivi_timelinemedia_dispose
    split <;> rfl
  | configure_event cursor =>
    cases h
    rfl
  | button_release_event cursor event =>
    obtain ⟨r, hr, _, hwid, _⟩ := button_release_returns env s cursor event
    simp only [step, hr, Except.map] at h
    cases h
    rw [hwid]
  | size_request requisition =>
    cases h
    rfl
  | size_allocate allocation =>
    cases h
    rfl
  | realize =>
    cases h
    rfl
  | expose =>
    cases h
    rfl

theorem reachable_media_type (env : Env) (s : PitiviTimelineMedia) (h : Reachable env s) :
    s.priv.media_type = 0 := by
  induction h with
  | init => rfl
  | constructed props w hw => exact constructor_media_type env props w hw
  | created sf w hw => exact new_media_type env sf w hw
  | cut s cursor event r w _ hr hmem _ =>
    obtain ⟨r2, hr2, _, _, hall⟩ := button_release_returns env s cursor event
    rw [hr] at hr2
    cases hr2
    exact new_media_type env s.sf w (hall w hmem)
  | after s op w _ hstep ih =>
    rw [step_keeps_media_type env s w op hstep, ih]

theorem dispose_of_run (self : PitiviTimelineMedia) (h : self.priv.dispose_has_run = true) :
    pitivi_timelinemedia_dispose self = (self, []) := by
  unfold pitivi_timelinemedia_dispose
  rw [if_pos h]

theorem dispose_of_not_run (self : PitiviTimelineMedia)
    (h : self.priv.dispose_has_run = false) :
    pitivi_timelinemedia_dispose self =
      ({ self with priv := { self.priv with dispose_has_run := true } },
        [Call.parent_dispose]) := by
  unfold pitivi_timelinemedia_dispose
  rw [if_neg (by simp [h])]

theorem dispose_sets_flag (self : PitiviTimelineMedia) :
    (pitivi_timelinemedia_dispose self).1.priv.dispose_has_run = true := by
  cases h : self.priv.dispose_has_run with
  | true => rw [dispose_of_run self h]; exact h
  | false => rw [dispose_of_not_run self h]

theorem dispose_times_of_run (n : Nat) :
    ∀ self : PitiviTimelineMedia, self.priv.dispose_has_run = true →
      dispose_times n self = (self, []) := by
  induction n with
  | zero =>
    intro self _
    rfl
  | succ n ih =>
    intro self h
    simp only [dispose_times, dispose_of_run self h, ih self h, List.append_nil]

/-! ## Property setters and getters -/

/-- C1: `pitivi_timelinemedia_set_property` reaches `g_assert (FALSE)` exactly
when the property id is neither `PROP_MEDIA_TYPE` (1) nor `PROP_SOURCEFILE`
(2), for every widget, id and value; for id 1 and for id 2 it completes. -/
theorem set_property_aborts_iff_invalid_id (env : Env) (self : PitiviTimelineMedia)
    (property_id : Nat) (value : GValue) :
    (pitivi_timelinemedia_set_property env self property_id value = .error Abort.assertion ↔
        property_id ≠ 1 ∧ property_id ≠ 2) ∧
    ((∃ w, pitivi_timelinemedia_set_property env self property_id value = .ok w) ↔
        property_id = 1 ∨ property_id = 2) ∧
    (∃ w, pitivi_timelinemedia_set_property env self PROP_MEDIA_TYPE value = .ok w) ∧
    (∃ w, pitivi_timelinemedia_set_property env self PROP_SOURCEFILE value = .ok w) := by
  refine ⟨?_, ?_, ⟨_, set_property_ok_of_installed env self _ value (Or.inl rfl)⟩,
    ⟨_, set_property_ok_of_installed env self _ value (Or.inr rfl)⟩⟩
  · unfold pitivi_timelinemedia_set_property PROP_MEDIA_TYPE PROP_SOURCEFILE
    by_cases h2 : property_id = 2
    · simp [h2]
    · by_cases h1 : property_id = 1
      · simp [h1]
      · simp [h1, h2]
  · unfold pitivi_timelinemedia_set_property PROP_MEDIA_TYPE PROP_SOURCEFILE
    by_cases h2 : property_id = 2
    · simp [h2]
    · by_cases h1 : property_id = 1
      · simp [h1]
      · simp [h1, h2]

/-- C2 (the code at the failing input): reading the installed, readable
property `media_type` (id `PROP_MEDIA_TYPE` = 1) reaches `g_assert (FALSE)`,
in every widget state; so does a read of any other id. -/
theorem get_property_media_type_aborts (self : PitiviTimelineMedia) (property_id : Nat) :
    pitivi_timelinemedia_get_property self PROP_MEDIA_TYPE = .error Abort.assertion ∧
    pitivi_timelinemedia_get_property self property_id = .error Abort.assertion :=
  ⟨rfl, rfl⟩

/-- C3 (the code at the failing input): setting `media_type` to `t` leaves the
private media-type tag as it was and overwrites `sf` with what
`g_value_get_pointer` reads out of the int value. On the example widget
(`sf` = 7, tag 0) setting `media_type` to 1 leaves the tag at 0 and makes
`sf` null, and `pitivi_timelinemedia_new 7` returns a widget with tag 0, not
`check_media_type 7` = 1, and with a null `sf`. -/
theorem set_property_media_type_writes_sf :
    (∀ (env : Env) (self : PitiviTimelineMedia) (t : Int),
      ∃ w, pitivi_timelinemedia_set_property env self PROP_MEDIA_TYPE (GValue.int t) = .ok w ∧
        w.priv.media_type = self.priv.media_type ∧
        w.sf = env.g_value_get_pointer (GValue.int t)) ∧
    (∃ w, pitivi_timelinemedia_set_property example_env example_widget PROP_MEDIA_TYPE
        (GValue.int 1) = .ok w ∧
      example_widget.priv.media_type = 0 ∧ example_widget.sf = 7 ∧
      w.priv.media_type = 0 ∧ w.priv.media_type ≠ 1 ∧ w.sf = NULL ∧ w.sf ≠ example_widget.sf) ∧
    (∃ w, pitivi_timelinemedia_new example_env 7 = .ok w ∧
      example_env.check_media_type 7 = 1 ∧
      w.priv.media_type = 0 ∧ w.priv.media_type ≠ example_env.check_media_type 7 ∧
      w.sf = NULL ∧ w.sf ≠ 7) := by
  refine ⟨?_, ?_, ?_⟩
  · intro env self t
    exact ⟨_, set_property_ok_of_installed env self _ _ (Or.inl rfl), rfl, rfl⟩
  · exact ⟨_, set_property_ok_of_installed example_env example_widget _ _ (Or.inl rfl),
      by decide, by decide, by decide, by decide, by decide, by decide⟩
  · exact ⟨_, new_eq example_env 7, by decide, by decide, by decide, by decide, by decide⟩

/-! ## Painting -/

/-- C4: the fill colour painted by `pitivi_timelinemedia_expose` is keyed to
the media type. With the three enumerators pairwise distinct, the handler
returns `FALSE` after making a graphics context, setting its foreground and
drawing one filled rectangle (at (0, 0), width `allocation.width - 2`, height
-1) with it: for a video widget the foreground is (red, green, blue) =
(0xffff, 0xdede, 0x8080), for an audio widget (0x8080, 0xaaaa, 0xffff), for a
video+audio widget (0x6060, 0xcccc, 0x6060). The three colours are pairwise
distinct, so two widgets of different type among the three are filled with
different colours; and two widgets with the same tag are filled with the same
colour, whatever their other fields. -/
theorem expose_color_keyed_to_media_type (env : Env)
    (hva : env.PITIVI_VIDEO_TRACK ≠ env.PITIVI_AUDIO_TRACK)
    (hvb : env.PITIVI_VIDEO_TRACK ≠ env.PITIVI_VIDEO_AUDIO_TRACK)
    (hab : env.PITIVI_AUDIO_TRACK ≠ env.PITIVI_VIDEO_AUDIO_TRACK)
    (a b : PitiviTimelineMedia) :
    (a.priv.media_type = env.PITIVI_VIDEO_TRACK →
      pitivi_timelinemedia_expose env a =
        (false,
          [Call.gtk_style_set_background, Call.gdk_gc_new,
           Call.gdk_gc_set_rgb_fg_color ⟨some 0xffff, some 0xdede, some 0x8080⟩,
           Call.gdk_draw_rectangle true 0 0 (gint (a.allocation.width - 2)) (-1)]) ∧
      painted (pitivi_timelinemedia_expose env a).2 =
        [⟨some ⟨some 0xffff, some 0xdede, some 0x8080⟩, 0, 0,
          gint (a.allocation.width - 2), -1⟩] ∧
      (fill_color (pitivi_timelinemedia_expose env a).2).bind GdkColor.rgb =
        some (0xffff, 0xdede, 0x8080)) ∧
    (a.priv.media_type = env.PITIVI_AUDIO_TRACK →
      pitivi_timelinemedia_expose env a =
        (false,
          [Call.gtk_style_set_background, Call.gdk_gc_new,
           Call.gdk_gc_set_rgb_fg_color ⟨some 0x8080, some 0xaaaa, some 0xffff⟩,
           Call.gdk_draw_rectangle true 0 0 (gint (a.allocation.width - 2)) (-1)]) ∧
      painted (pitivi_timelinemedia_expose env a).2 =
        [⟨some ⟨some 0x8080, some 0xaaaa, some 0xffff⟩, 0, 0,
          gint (a.allocation.width - 2), -1⟩] ∧
      (fill_color (pitivi_timelinemedia_expose env a).2).bind GdkColor.rgb =
        some (0x8080, 0xaaaa, 0xffff)) ∧
    (a.priv.media_type = env.PITIVI_VIDEO_AUDIO_TRACK →
      pitivi_timelinemedia_expose env a =
        (false,
          [Call.gtk_style_set_background, Call.gdk_gc_new,
           Call.gdk_gc_set_rgb_fg_color ⟨some 0x6060, some 0xcccc, some 0x6060⟩,
           Call.gdk_draw_rectangle true 0 0 (gint (a.allocation.width - 2)) (-1)]) ∧
      painted (pitivi_timelinemedia_expose env a).2 =
        [⟨some ⟨some 0x6060, some 0xcccc, some 0x6060⟩, 0, 0,
          gint (a.allocation.width - 2), -1⟩] ∧
      (fill_color (pitivi_timelinemedia_expose env a).2).bind GdkColor.rgb =
        some (0x6060, 0xcccc, 0x6060)) ∧
    ((0xffff, 0xdede, 0x8080) ≠ ((0x8080, 0xaaaa, 0xffff) : Nat × Nat × Nat) ∧
      (0xffff, 0xdede, 0x8080) ≠ ((0x6060, 0xcccc, 0x6060) : Nat × Nat × Nat) ∧
      (0x8080, 0xaaaa, 0xffff) ≠ ((0x6060, 0xcccc, 0x6060) : Nat × Nat × Nat)) ∧
    (a.priv.media_type ∈
        [env.PITIVI_VIDEO_TRACK, env.PITIVI_AUDIO_TRACK, env.PITIVI_VIDEO_AUDIO_TRACK] →
      b.priv.media_type ∈
        [env.PITIVI_VIDEO_TRACK, env.PITIVI_AUDIO_TRACK, env.PITIVI_VIDEO_AUDIO_TRACK] →
      a.priv.media_type ≠ b.priv.media_type →
      fill_color (pitivi_timelinemedia_expose env a).2 ≠
          fill_color (pitivi_timelinemedia_expose env b).2 ∧
        (painted (pitivi_timelinemedia_expose env a).2).map Fill.color ≠
          (painted (pitivi_timelinemedia_expose env b).2).map Fill.color) ∧
    (a.priv.media_type = b.priv.media_type →
      fill_color (pitivi_timelinemedia_expose env a).2 =
          fill_color (pitivi_timelinemedia_expose env b).2 ∧
        (painted (pitivi_timelinemedia_expose env a).2).map Fill.color =
          (painted (pitivi_timelinemedia_expose env b).2).map Fill.color) := by
  have hfill : ∀ w : PitiviTimelineMedia,
      fill_color (pitivi_timelinemedia_expose env w).2 = some (expose_color env w) := by
    intro w
    rfl
  have hpaint : ∀ w : PitiviTimelineMedia,
      painted (pitivi_timelinemedia_expose env w).2 =
        [⟨some (expose_color env w), 0, 0, gint (w.allocation.width - 2), -1⟩] := by
    intro w
    rfl
  have hexp : ∀ w : PitiviTimelineMedia,
      pitivi_timelinemedia_expose env w =
        (false,
          [Call.gtk_style_set_background, Call.gdk_gc_new,
           Call.gdk_gc_set_rgb_fg_color (expose_color env w),
           Call.gdk_draw_rectangle true 0 0 (gint (w.allocation.width - 2)) (-1)]) := by
    intro w
    rfl
  have hv : ∀ w : PitiviTimelineMedia, w.priv.media_type = env.PITIVI_VIDEO_TRACK →
      expose_color env w = ⟨some 0xffff, some 0xdede, some 0x8080⟩ := by
    intro w h
    simp [expose_color, h]
  have ha : ∀ w : PitiviTimelineMedia, w.priv.media_type = env.PITIVI_AUDIO_TRACK →
      expose_color env w = ⟨some 0x8080, some 0xaaaa, some 0xffff⟩ := by
    intro w h
    simp [expose_color, h, Ne.symm hva]
  have hb : ∀ w : PitiviTimelineMedia, w.priv.media_type = env.PITIVI_VIDEO_AUDIO_TRACK →
      expose_color env w = ⟨some 0x6060, some 0xcccc, some 0x6060⟩ := by
    intro w h
    simp [expose_color, h, Ne.symm hvb, Ne.symm hab]
  have hne : a.priv.media_type ∈
        [env.PITIVI_VIDEO_TRACK, env.PITIVI_AUDIO_TRACK, env.PITIVI_VIDEO_AUDIO_TRACK] →
      b.priv.media_type ∈
        [env.PITIVI_VIDEO_TRACK, env.PITIVI_AUDIO_TRACK, env.PITIVI_VIDEO_AUDIO_TRACK] →
      a.priv.media_type ≠ b.priv.media_type → expose_color env a ≠ expose_color env b := by
    intro hma hmb hdiff
    simp only [List.mem_cons, List.mem_singleton, List.not_mem_nil, or_false] at hma hmb
    rcases hma with h1 | h1 | h1 <;> rcases hmb with h2 | h2 | h2
    all_goals first
      | exact absurd (h1.trans h2.symm) hdiff
      | (first
          | rw [hv a h1]
          | rw [ha a h1]
          | rw [hb a h1]
         first
          | rw [hv b h2]
          | rw [ha b h2]
          | rw [hb b h2]
         decide)
  refine ⟨?_, ?_, ?_, ⟨by decide, by decide, by decide⟩, ?_, ?_⟩
  · intro h
    rw [hpaint, hfill, hexp, hv a h]
    exact ⟨rfl, rfl, rfl⟩
  · intro h
    rw [hpaint, hfill, hexp, ha a h]
    exact ⟨rfl, rfl, rfl⟩
  · intro h
    rw [hpaint, hfill, hexp, hb a h]
    exact ⟨rfl, rfl, rfl⟩
  · intro hma hmb hdiff
    have hcol := hne hma hmb hdiff
    rw [hfill, hfill, hpaint, hpaint]
    constructor
    · intro heq
      exact hcol (Option.some.inj heq)
    · intro heq
      simp only [List.map_cons, List.map_nil, List.cons.injEq, Option.some.injEq,
        and_true] at heq
      exact hcol heq
  · intro h
    have hcol : expose_color env a = expose_color env b := by
      simp [expose_color, h]
    rw [hfill, hfill, hpaint, hpaint, hcol]
    exact ⟨rfl, rfl⟩

/-- C4, at a concrete input: with the enumerators 1, 2, 3 an audio widget of
width 10 gets one filled rectangle of width 8 in (0x8080, 0xaaaa, 0xffff). -/
theorem expose_color_keyed_to_media_type_witness :
    painted (pitivi_timelinemedia_expose example_env
        { example_widget with priv := { example_widget.priv with media_type := 2 } }).2 =
      [⟨some ⟨some 0x8080, some 0xaaaa, some 0xffff⟩, 0, 0, 8, -1⟩] :=
  ((expose_color_keyed_to_media_type example_env (by decide) (by decide) (by decide)
    { example_widget with priv := { example_widget.priv with media_type := 2 } }
    example_widget).2.1 (by decide)).2.1

/-- C10: `pitivi_timelinemedia_expose` assigns the colour only for the three
media types: the colour it passes on has no channel assigned exactly when the
tag is none of video, audio, video+audio; then red, green and blue are all
unassigned, and otherwise all three are assigned. In particular a tag of
`PITIVI_NO_TRACK`, when that is none of the three, leaves the colour
unassigned. -/
theorem expose_color_unassigned_iff (env : Env) (self : PitiviTimelineMedia) :
    fill_color (pitivi_timelinemedia_expose env self).2 = some (expose_color env self) ∧
    ((expose_color env self).rgb = none ↔
      self.priv.media_type ≠ env.PITIVI_VIDEO_TRACK ∧
      self.priv.media_type ≠ env.PITIVI_AUDIO_TRACK ∧
      self.priv.media_type ≠ env.PITIVI_VIDEO_AUDIO_TRACK) ∧
    ((expose_color env self).rgb = none ↔
      (expose_color env self).red = none ∧ (expose_color env self).green = none ∧
        (expose_color env self).blue = none) ∧
    ((expose_color env self).rgb ≠ none ↔
      (expose_color env self).red ≠ none ∧ (expose_color env self).green ≠ none ∧
        (expose_color env self).blue ≠ none) ∧
    (env.PITIVI_NO_TRACK ≠ env.PITIVI_VIDEO_TRACK →
      env.PITIVI_NO_TRACK ≠ env.PITIVI_AUDIO_TRACK →
      env.PITIVI_NO_TRACK ≠ env.PITIVI_VIDEO_AUDIO_TRACK →
      self.priv.media_type = env.PITIVI_NO_TRACK → (expose_color env self).rgb = none) := by
  refine ⟨rfl, ?_⟩
  rcases expose_color_cases env self with ⟨h1, hc⟩ | ⟨h1, h2, hc⟩ | ⟨h1, h2, h3, hc⟩ |
    ⟨h1, h2, h3, hc⟩
  · rw [hc]
    refine ⟨?_, ?_, ?_, ?_⟩
    · simp [GdkColor.rgb, h1]
    · simp [GdkColor.rgb]
    · simp [GdkColor.rgb]
    · intro n1 _ _ hno
      exact absurd (hno.symm.trans h1) n1
  · rw [hc]
    refine ⟨?_, ?_, ?_, ?_⟩
    · simp [GdkColor.rgb, h2]
    · simp [GdkColor.rgb]
    · simp [GdkColor.rgb]
    · intro _ n2 _ hno
      exact absurd (hno.symm.trans h2) n2
  · rw [hc]
    refine ⟨?_, ?_, ?_, ?_⟩
    · simp [GdkColor.rgb, h3]
    · simp [GdkColor.rgb]
    · simp [GdkColor.rgb]
    · intro _ _ n3 hno
      exact absurd (hno.symm.trans h3) n3
  · rw [hc]
    refine ⟨?_, ?_, ?_, ?_⟩
    · simp [GdkColor.rgb, h1, h2, h3]
    · simp [GdkColor.rgb]
    · simp [GdkColor.rgb]
    · intro _ _ _ _
      rfl

/-- C10, at a concrete input: a widget whose tag is `PITIVI_NO_TRACK` (0 in the
example environment) is painted with an unassigned colour. -/
theorem expose_color_unassigned_iff_witness :
    (expose_color example_env example_widget).rgb = none :=
  (expose_color_unassigned_iff example_env example_widget).2.2.2.2
    (by decide) (by decide) (by decide) rfl

/-! ## The cut gesture -/

/-- With the allocation and the pointer inside the 16 bit range of X11
coordinates, every number the cut computes is in the range of a `gint`. -/
theorem cut_arithmetic_in_gint_range (ax width x : Int)
    (hax : -32768 ≤ ax ∧ ax ≤ 32767) (hwidth : 0 ≤ width ∧ width ≤ 65535)
    (hx : -32768 ≤ x ∧ x ≤ 32767) :
    gint_range x ∧ gint_range (x - 2) ∧ gint_range (width - x) ∧ gint_range (ax + x) := by
  unfold gint_range
  omega

/-- C5, as stated, fails: on a widget allocated at ax = 2147483647 (the largest
`gint`) with width 10, a cut at pixel x = 5 adds the new widget at
(-2147483644, 0), the `gint` sum having wrapped, and not at (ax + x, 0). -/
theorem cut_position_wraps :
    ∃ r, pitivi_timelinemedia_button_release_event example_env
        { example_widget with allocation := { x := 2147483647, y := 0, width := 10, height := 50 } }
        ⟨example_env.PITIVI_CURSOR_CUT⟩ ⟨5, 0, 1⟩ = .ok r ∧
      r.calls =
        [Call.gtk_widget_set_size_request WidgetRef.widget 3 50,
         Call.pitivi_timelinemedia_new 7,
         Call.gtk_widget_set_size_request WidgetRef.media 5 50,
         Call.add_to_layout 512 WidgetRef.media (-2147483644) 0,
         Call.gtk_widget_show WidgetRef.media] ∧
      Call.add_to_layout 512 WidgetRef.media (2147483647 + 5) 0 ∉ r.calls := by
  have h5 : double_to_gint (5 : ℚ) = 5 := by
    exact_mod_cast double_to_gint_intCast 5 (by decide)
  have h3 : double_to_gint (double_sub (5 : ℚ) 2) = 3 := by
    rw [double_sub_two_fixed_point 5 327680 (by norm_num) (by norm_num [abs_of_nonneg])]
    have h : (5 : ℚ) - 2 = ((3 : Int) : ℚ) := by norm_num
    rw [h]
    exact double_to_gint_intCast 3 (by decide)
  have hcalls :
      [Call.gtk_widget_set_size_request WidgetRef.widget (double_to_gint (double_sub (5 : ℚ) 2))
         50,
       Call.pitivi_timelinemedia_new 7,
       Call.gtk_widget_set_size_request WidgetRef.media (gint (10 - double_to_gint (5 : ℚ))) 50,
       Call.add_to_layout 512 WidgetRef.media (gint (double_to_gint (5 : ℚ) + 2147483647)) 0,
       Call.gtk_widget_show WidgetRef.media] =
      [Call.gtk_widget_set_size_request WidgetRef.widget 3 50,
       Call.pitivi_timelinemedia_new 7,
       Call.gtk_widget_set_size_request WidgetRef.media 5 50,
       Call.add_to_layout 512 WidgetRef.media (-2147483644) 0,
       Call.gtk_widget_show WidgetRef.media] := by
    rw [h3, h5]
    decide
  refine ⟨_, button_release_cut example_env _ _ _ _ rfl (new_eq example_env _), hcalls, ?_⟩
  intro hmem
  have hlist : Call.add_to_layout 512 WidgetRef.media (2147483647 + 5) 0 ∈
      [Call.gtk_widget_set_size_request WidgetRef.widget 3 50,
       Call.pitivi_timelinemedia_new 7,
       Call.gtk_widget_set_size_request WidgetRef.media 5 50,
       Call.add_to_layout 512 WidgetRef.media (-2147483644) 0,
       Call.gtk_widget_show WidgetRef.media] := by
    rw [← hcalls]
    exact hmem
  revert hlist
  decide

/-- C5, amended: under the cut cursor a button release at integer pixel `x` on
a widget allocated at `ax` with width `width`, where `x`, `x - 2`,
`width - x` and `ax + x` are in the range of a `gint`, returns normally after
exactly these calls, in this order: a size request (x - 2, FIXED_HEIGHT) for
the widget, one `pitivi_timelinemedia_new (self->sf)`, a size request
(width - x, FIXED_HEIGHT) for the new widget, `add_to_layout` of the new
widget into the widget's parent container at (ax + x, 0), and
`gtk_widget_show`. One widget is created, and the right edge of the new
piece, (ax + x) + (width - x), is ax + width. -/
theorem cut_gesture (env : Env) (widget : PitiviTimelineMedia) (cursor : PitiviCursor)
    (event : GdkEventButton) (x : Int) (hcut : cursor.type = env.PITIVI_CURSOR_CUT)
    (hx : event.x = (x : ℚ)) (hrx : gint_range x) (hr1 : gint_range (x - 2))
    (hr2 : gint_range (widget.allocation.width - x))
    (hr3 : gint_range (widget.allocation.x + x)) :
    ∃ media, pitivi_timelinemedia_new env widget.sf = .ok media ∧
      pitivi_timelinemedia_button_release_event env widget cursor event =
        .ok { ret := false
              widget := widget
              created := [media]
              calls :=
                [Call.gtk_widget_set_size_request WidgetRef.widget (x - 2) env.FIXED_HEIGHT,
                 Call.pitivi_timelinemedia_new widget.sf,
                 Call.gtk_widget_set_size_request WidgetRef.media
                   (widget.allocation.width - x) env.FIXED_HEIGHT,
                 Call.add_to_layout widget.parent WidgetRef.media (widget.allocation.x + x) 0,
                 Call.gtk_widget_show WidgetRef.media] } ∧
      (widget.allocation.x + x) + (widget.allocation.width - x) =
        widget.allocation.x + widget.allocation.width := by
  refine ⟨_, new_eq env widget.sf, ?_, by omega⟩
  unfold gint_range at hrx hr1 hr2 hr3
  have habs : |event.x| < 34359738368 := by
    rw [hx, abs_lt]
    constructor
    · have h : ((-2147483648 : Int) : ℚ) ≤ (x : ℚ) := by exact_mod_cast hrx.1
      push_cast at h
      linarith
    · have h : (x : ℚ) ≤ ((2147483647 : Int) : ℚ) := by exact_mod_cast hrx.2
      push_cast at h
      linarith
  have hsub : double_to_gint (double_sub event.x 2) = x - 2 := by
    rw [double_sub_two_fixed_point event.x (x * 65536) (by rw [hx]; push_cast; ring) habs, hx]
    have h : (x : ℚ) - 2 = ((x - 2 : Int) : ℚ) := by push_cast; ring
    rw [h]
    exact double_to_gint_intCast (x - 2) hr1
  have hconv : double_to_gint event.x = x := by
    rw [hx]
    exact double_to_gint_intCast x hrx
  rw [button_release_cut env widget cursor event _ hcut (new_eq env widget.sf), hsub, hconv,
    gint_of_range _ hr2, Int.add_comm x widget.allocation.x, gint_of_range _ hr3]

/-- C5 amended, at a concrete input: a cut at x = 5 of the example widget
(allocated at 100, width 10, in the container at 512). -/
theorem cut_gesture_witness :
    ∃ media, pitivi_timelinemedia_new example_env example_widget.sf = .ok media ∧
      pitivi_timelinemedia_button_release_event example_env example_widget ⟨2⟩ ⟨5, 0, 1⟩ =
        .ok { ret := false
              widget := example_widget
              created := [media]
              calls :=
                [Call.gtk_widget_set_size_request WidgetRef.widget 3 50,
                 Call.pitivi_timelinemedia_new 7,
                 Call.gtk_widget_set_size_request WidgetRef.media 5 50,
                 Call.add_to_layout 512 WidgetRef.media 105 0,
                 Call.gtk_widget_show WidgetRef.media] } ∧
      ((100 : Int) + 5) + (10 - 5) = 100 + 10 :=
  cut_gesture example_env example_widget ⟨2⟩ ⟨5, 0, 1⟩ 5 rfl (by norm_num)
    (by decide) (by decide) (by decide) (by decide)

/-- C7: for every widget, event and cursor, a button release returns `FALSE`
and leaves the widget as it was; when the cursor type is not
`PITIVI_CURSOR_CUT` it creates no widget and makes no call at all (so no size
request), whatever the button, the position and the selection flag. -/
theorem button_release_splits_only_under_cut (env : Env) (widget : PitiviTimelineMedia)
    (cursor : PitiviCursor) (event : GdkEventButton) :
    (∃ r, pitivi_timelinemedia_button_release_event env widget cursor event = .ok r ∧
      r.ret = false ∧ r.widget = widget) ∧
    (cursor.type ≠ env.PITIVI_CURSOR_CUT →
      pitivi_timelinemedia_button_release_event env widget cursor event =
        .ok { ret := false, widget := widget, created := [], calls := [] }) := by
  refine ⟨?_, button_release_other env widget cursor event⟩
  obtain ⟨r, hr, hret, hwid, _⟩ := button_release_returns env widget cursor event
  exact ⟨r, hr, hret, hwid⟩

/-- C7, at a concrete input: a right click (button 3) on the selected example
widget under cursor type 0. -/
theorem button_release_splits_only_under_cut_witness :
    pitivi_timelinemedia_button_release_event example_env
        { example_widget with selected := true } ⟨0⟩ ⟨5, 0, 3⟩ =
      .ok { ret := false, widget := { example_widget with selected := true },
            created := [], calls := [] } :=
  (button_release_splits_only_under_cut example_env { example_widget with selected := true }
    ⟨0⟩ ⟨5, 0, 3⟩).2 (by decide)

/-! ## Dispose -/

/-- C8: dispose does not run twice. On a widget whose `dispose_has_run` is
`FALSE` (as `instance_init` leaves it) a dispose sets the flag, changes
nothing else, and calls the parent's dispose once; on a widget whose flag is
set it changes nothing and calls nothing. So after any dispose the flag is
set, a second dispose is a no-op, disposing twice equals disposing once, and
over `n` dispose calls in a row the parent's dispose is called at most once:
exactly once when the flag was clear and `n` > 0. -/
theorem dispose_runs_once (env : Env) (self : PitiviTimelineMedia) (n : Nat) :
    (pitivi_timelinemedia_instance_init env self).priv.dispose_has_run = false ∧
    (self.priv.dispose_has_run = false →
      pitivi_timelinemedia_dispose self =
        ({ self with priv := { self.priv with dispose_has_run := true } },
          [Call.parent_dispose])) ∧
    (self.priv.dispose_has_run = true → pitivi_timelinemedia_dispose self = (self, [])) ∧
    (pitivi_timelinemedia_dispose self).1.priv.dispose_has_run = true ∧
    pitivi_timelinemedia_dispose (pitivi_timelinemedia_dispose self).1 =
      ((pitivi_timelinemedia_dispose self).1, []) ∧
    (dispose_times (n + 1) self).1 = (pitivi_timelinemedia_dispose self).1 ∧
    (dispose_times (n + 1) self).2 = (pitivi_timelinemedia_dispose self).2 ∧
    (dispose_times n self).2.count Call.parent_dispose ≤ 1 ∧
    (self.priv.dispose_has_run = false →
      (dispose_times (n + 1) self).2 = [Call.parent_dispose]) := by
  have hstep : dispose_times (n + 1) self =
      ((pitivi_timelinemedia_dispose self).1, (pitivi_timelinemedia_dispose self).2) := by
    simp only [dispose_times,
      dispose_times_of_run n (pitivi_timelinemedia_dispose self).1 (dispose_sets_flag self),
      List.append_nil]
  have hcount : (pitivi_timelinemedia_dispose self).2.count Call.parent_dispose ≤ 1 := by
    cases h : self.priv.dispose_has_run with
    | true => rw [dispose_of_run self h]; simp
    | false => rw [dispose_of_not_run self h]; simp
  refine ⟨rfl, dispose_of_not_run self, dispose_of_run self, dispose_sets_flag self,
    dispose_of_run _ (dispose_sets_flag self), ?_, ?_, ?_, ?_⟩
  · rw [hstep]
  · rw [hstep]
  · cases n with
    | zero => simp [dispose_times]
    | succ m =>
      have hm : dispose_times (m + 1) self =
          ((pitivi_timelinemedia_dispose self).1, (pitivi_timelinemedia_dispose self).2) := by
        simp only [dispose_times,
          dispose_times_of_run m (pitivi_timelinemedia_dispose self).1 (dispose_sets_flag self),
          List.append_nil]
      rw [hm]
      exact hcount
  · intro h
    rw [hstep, dispose_of_not_run self h]

/-- C8, at a concrete input: three disposes of the example widget set the flag
and call the parent's dispose once. -/
theorem dispose_runs_once_witness :
    dispose_times 3 example_widget =
      ({ example_widget with priv := { example_widget.priv with dispose_has_run := true } },
        [Call.parent_dispose]) := by
  have h := dispose_runs_once example_env example_widget 2
  have h1 := h.2.2.2.2.2.1
  have h2 := h.2.2.2.2.2.2.1
  have h3 := h.2.1 rfl
  rw [h3] at h1 h2
  exact Prod.ext h1 h2

/-! ## The media-type tag -/

/-- C9: the private media-type tag is never written after initialisation. In
every widget state the file can produce (an initialised instance, a
constructed object, a widget from `pitivi_timelinemedia_new`, a piece created
by a cut, each followed by any sequence of set_property with any id and value,
dispose, configure, button release, size request, size allocate, realize and
expose)
the tag is 0; hence any two such widgets are painted by the same branch of the
expose handler, with the same colour, whatever source file they come from. -/
theorem media_type_never_written (env : Env) (s t : PitiviTimelineMedia)
    (hs : Reachable env s) (ht : Reachable env t) :
    (pitivi_timelinemedia_instance_init env env.raw_instance).priv.media_type = 0 ∧
    s.priv.media_type = 0 ∧
    expose_color env s = expose_color env t ∧
    fill_color (pitivi_timelinemedia_expose env s).2 =
      fill_color (pitivi_timelinemedia_expose env t).2 := by
  have h1 := reachable_media_type env s hs
  have h2 := reachable_media_type env t ht
  have hc : expose_color env s = expose_color env t := by
    simp only [expose_color, h1, h2]
  refine ⟨rfl, h1, hc, ?_⟩
  show some (expose_color env s) = some (expose_color env t)
  rw [hc]

/-- C9, at a concrete input: the widget made from source file 7 (a video file
for `check_media_type`) and then given `media_type` 1 and a cut cursor, and
the widget made from a null source file, both have tag 0 and are painted with
the same colour. -/
theorem media_type_never_written_witness :
    ∃ a b c t,
      pitivi_timelinemedia_new example_env 7 = .ok a ∧
      step example_env a (Op.set_property PROP_MEDIA_TYPE (GValue.int 1)) = .ok b ∧
      step example_env b (Op.configure_event ⟨2⟩) = .ok c ∧
      pitivi_timelinemedia_new example_env NULL = .ok t ∧
      c ≠ t ∧ c.priv.media_type = 0 ∧
      expose_color example_env c = expose_color example_env t := by
  have ha := new_eq example_env 7
  have ht := new_eq example_env NULL
  refine ⟨_, _, _, _, ha,
    set_property_ok_of_installed example_env _ PROP_MEDIA_TYPE (GValue.int 1) (Or.inl rfl),
    rfl, ht, by decide, ?_⟩
  have h := media_type_never_written example_env _ _
    (Reachable.after _ (Op.configure_event ⟨2⟩) _
      (Reachable.after _ (Op.set_property PROP_MEDIA_TYPE (GValue.int 1)) _
        (Reachable.created 7 _ ha)
        (set_property_ok_of_installed example_env _ PROP_MEDIA_TYPE (GValue.int 1)
          (Or.inl rfl)))
      rfl)
    (Reachable.created NULL _ ht)
  exact ⟨h.2.1, h.2.2.1⟩

end Pitivi
